import Mathlib

/-!
Verification development for the multi-agent chat orchestrator repository
(`src/main.py`, `src/modules/cl.py`, and the leaf tool providers under
`src/tools/`).  Python values are embedded shallowly:

* machine-independent Python `int` values are `Int`/`Nat`;
* Python `float` arithmetic on the synthetic-data paths is modelled over `ℚ`
  (all the numeric operations involved are exact decimal computations plus
  `round`, modelled by half-even rounding below);
* `datetime.date` values are integer day ordinals, `datetime.datetime` values
  are a record of day ordinal plus hour/minute/second/microsecond fields;
* a fallible Python call (an operation that can raise) returns
  `Except String α`, the `String` carrying the exception message;
* the stochastic draws of `random.uniform`/`gauss`/`random` are supplied by
  oracle arguments, so one oracle value corresponds to one concrete run of
  the interpreter.
-/

/- The library marks the arithmetic of `Rat` irreducible; the embedded
operations must evaluate on concrete inputs (the counterexamples and
witnesses below reduce them with `rfl`/`decide`), so reducibility is
restored for this file. -/
attribute [local semireducible] Rat.add Rat.sub Rat.mul Rat.inv Rat.ofScientific

/-- Python `round(x, n)` on the exact rational value: round half to even at
`n` decimal digits (the tie-breaking rule of Python's `round`). -/
def roundHalfEven (q : ℚ) : ℤ :=
  let f : ℤ := ⌊q⌋
  let frac : ℚ := q - f
  if frac < 1/2 then f
  else if 1/2 < frac then f + 1
  else if f % 2 = 0 then f else f + 1

/-- Python `round(q, n)` modelled over `ℚ`. -/
def pyRoundTo (q : ℚ) (n : Nat) : ℚ :=
  (roundHalfEven (q * (10 : ℚ) ^ n) : ℚ) / (10 : ℚ) ^ n

/-- Python `round(q, 2)`. -/
def pyRound2 (q : ℚ) : ℚ := pyRoundTo q 2

/-- Python `round(q, 1)`. -/
def pyRound1 (q : ℚ) : ℚ := pyRoundTo q 1

/-- A Python `datetime.datetime`: integer day ordinal plus time-of-day
fields.  `replace(minute=0, second=0, microsecond=0)` and
`timedelta(hours=i)` act on the obvious fields. -/
structure PyDateTime where
  day : Int
  hour : Nat
  minute : Nat
  second : Nat
  microsecond : Nat
deriving DecidableEq, Repr

/-- Python truthiness of an optional list argument combined with
`param or default` (both `None` and `[]` select the default). -/
def resolveDefault (param : Option (List String)) (dflt : List String) : List String :=
  match param with
  | none => dflt
  | some l => if l.isEmpty then dflt else l

/-- The day cursor loop `while day_cursor <= to_date: ...; day_cursor += 1 day`
shared by `get_logistics_data` and `get_production_data`: the list of day
ordinals visited. -/
def dayRange (from_date to_date : Int) : List Int :=
  (List.range (to_date + 1 - from_date).toNat).map (fun i : Nat => from_date + (i : Int))

/-- Roles of conversation records (`src/main.py` message history). -/
inductive Role where
  | system
  | user
  | assistant
deriving DecidableEq, Repr

/-- A `{"role": ..., "content": ...}` history record. -/
structure MessageRecord where
  role : Role
  content : String
deriving DecidableEq, Repr

/-- One unit of output of an agent's event stream (spec §3: a discriminated
union).  `delta t` is a dict event carrying a nested `delta.text`; `deltaNoText`
is a dict with a `delta` key but no nested text; `data` / `message` are the
orchestrator-level dict events inspected by `handle_message`; `text` is a plain
string token (the shape yielded on a specialist's error path); `other` is any
unrecognized event. -/
inductive Event where
  | delta (text : String)
  | deltaNoText
  | data (s : String)
  | message (rec : MessageRecord)
  | text (s : String)
  | other
deriving DecidableEq, Repr

/-! ### The streaming relay decorator (`stream_to_step`, `src/modules/cl.py` 21-60) -/

/-- The iteration loop of `stream_to_step`'s `wrapper`: given whether a step
is registered for the tool name and the accumulated content so far, process
the remaining events.  Returns (events yielded downstream, text deltas
forwarded to the step via `stream_token`, final accumulated content). -/
def streamLoop (hasStep : Bool) (acc : String) :
    List Event → List Event × List String × String
  | [] => ([], [], acc)
  | e :: rest =>
    let (fwd, acc2) :=
      match e with
      | Event.delta t => if t ≠ "" ∧ hasStep then ([t], acc ++ t) else ([], acc)
      | _ => ([], acc)
    let (ds, fs, accF) := streamLoop hasStep acc2 rest
    (e :: ds, fwd ++ fs, accF)

/-- Result of one run of the decorated generator. -/
structure StreamRun where
  downstream : List Event
  forwarded : List String
  final_acc : String
  step_output : Option String
deriving DecidableEq, Repr

/-- `stream_to_step(tool_name)` applied to a generator run that produces
`events`: relays nonempty `delta.text` payloads to the step (when one exists),
re-yields every event, and on exhaustion writes the step's final output
(`accumulated_content if accumulated_content else "✓ Completed"`). -/
def stream_to_step (hasStep : Bool) (events : List Event) : StreamRun :=
  let (ds, fs, accF) := streamLoop hasStep "" events
  { downstream := ds
    forwarded := fs
    final_acc := accF
    step_output := if hasStep then some (if accF = "" then "✓ Completed" else accF) else none }

/-- The deltas that the loop forwards: nonempty `delta.text` payloads, kept
in arrival order (a characterization of `streamLoop`, proved below). -/
def forwardedDeltas (hasStep : Bool) (events : List Event) : List String :=
  events.filterMap fun e =>
    match e with
    | Event.delta t => if t ≠ "" ∧ hasStep then some t else none
    | _ => none

/-- Concatenation of a list of strings, front to back. -/
def joinAll : List String → String
  | [] => ""
  | s :: rest => s ++ joinAll rest

theorem joinAll_append (a b : List String) :
    joinAll (a ++ b) = joinAll a ++ joinAll b := by
  induction a with
  | nil => simp [joinAll]
  | cons s rest ih => simp [joinAll, ih, String.append_assoc]

theorem streamLoop_spec (hasStep : Bool) (events : List Event) (acc : String) :
    streamLoop hasStep acc events =
      (events, forwardedDeltas hasStep events,
        acc ++ joinAll (forwardedDeltas hasStep events)) := by
  induction events generalizing acc with
  | nil => simp [streamLoop, forwardedDeltas, joinAll]
  | cons e rest ih =>
    cases e with
    | delta t =>
      by_cases ht : t = ""
      · subst ht
        cases hasStep <;> simp [streamLoop, ih, forwardedDeltas, joinAll]
      · cases hasStep
        · simp [streamLoop, ih, forwardedDeltas, joinAll, ht]
        · simp [streamLoop, ih, forwardedDeltas, joinAll, ht, String.append_assoc]
    | deltaNoText => simp [streamLoop, ih, forwardedDeltas]
    | data s => simp [streamLoop, ih, forwardedDeltas]
    | message m => simp [streamLoop, ih, forwardedDeltas]
    | text s => simp [streamLoop, ih, forwardedDeltas]
    | other => simp [streamLoop, ih, forwardedDeltas]

theorem stream_to_step_downstream (hasStep : Bool) (events : List Event) :
    (stream_to_step hasStep events).downstream = events := by
  simp [stream_to_step, streamLoop_spec]

theorem stream_to_step_forwarded (hasStep : Bool) (events : List Event) :
    (stream_to_step hasStep events).forwarded = forwardedDeltas hasStep events := by
  simp [stream_to_step, streamLoop_spec]

theorem stream_to_step_final_acc (hasStep : Bool) (events : List Event) :
    (stream_to_step hasStep events).final_acc =
      joinAll (forwardedDeltas hasStep events) := by
  simp [stream_to_step, streamLoop_spec]

/-! ### Specialist assistant wrappers (`src/tools/*/agent.py`)

Each wrapper's body is `try: ...setup...; async for token in inner: yield
token; except Exception as e: yield f"Error in research assistant: {str(e)}"`.
A run of the inner generation is a pair: the events it yields before
finishing, plus `none` (it completed) or `some msg` (an exception with
message `msg` was raised, during setup, generation, or mid-stream).  The
wrapper's own run is returned the same way: the second component is the
exception, if any, that the wrapper itself propagates to its caller. -/

/-- `logistics_assistant` (`src/tools/logistics/agent.py` 19-45). -/
def logistics_assistant (inner_events : List Event) (inner_exc : Option String) :
    List Event × Option String :=
  match inner_exc with
  | none => (inner_events, none)
  | some msg => (inner_events ++ [Event.text ("Error in research assistant: " ++ msg)], none)

/-- `production_assistant` (`src/tools/production/agent.py` 18-44). -/
def production_assistant (inner_events : List Event) (inner_exc : Option String) :
    List Event × Option String :=
  match inner_exc with
  | none => (inner_events, none)
  | some msg => (inner_events ++ [Event.text ("Error in research assistant: " ++ msg)], none)

/-- `weather_assistant` (`src/tools/weather/agent.py` 20-46). -/
def weather_assistant (inner_events : List Event) (inner_exc : Option String) :
    List Event × Option String :=
  match inner_exc with
  | none => (inner_events, none)
  | some msg => (inner_events ++ [Event.text ("Error in research assistant: " ++ msg)], none)

/-! ### Authentication boundary (`src/modules/cl.py` 63-78, `src/main.py` 45-55) -/

/-- A `cl.User` as built by the auth callbacks. -/
structure PyUser where
  identifier : String
  display_name : String
  role : String
  provider : String
deriving DecidableEq, Repr

/-- Outcome of `jwt.decode(token, secret, algorithms=[alg])` followed by the
`payload['user_info']` lookups: either a decoded identity, an
`ExpiredSignatureError`, or any other failure (invalid signature, malformed
token, missing claim) with its message. -/
inductive DecodeOutcome where
  | ok (userid display_name : String)
  | expired
  | invalid (msg : String)
deriving DecidableEq, Repr

/-- `auth_callback` (`src/modules/cl.py` 63-78): result is `.error msg` when
an uncaught exception with message `msg` escapes to the caller, otherwise
`.ok (some user)` / `.ok none` for the identity-or-None return.  Only
`jwt.ExpiredSignatureError` is caught. -/
def auth_callback (header_jwt : Option String) (decode : String → DecodeOutcome) :
    Except String (Option PyUser) :=
  match header_jwt with
  | some tok =>
    if tok = "" then Except.ok none
    else
      match decode tok with
      | DecodeOutcome.ok uid dn => Except.ok (some ⟨uid, dn, "user", "header"⟩)
      | DecodeOutcome.expired => Except.ok none
      | DecodeOutcome.invalid msg => Except.error msg
  | none => Except.ok none

/-- `header_auth_callback` (`src/main.py` 45-55).  `fake_user` is
`os.getenv('FAKE_USER', False)` (a `none` models the `False` default, and an
empty string is falsy). -/
def header_auth_callback (environment : String) (fake_user : Option String)
    (header_jwt : Option String) (decode : String → DecodeOutcome) :
    Except String (Option PyUser) :=
  match fake_user with
  | some fu =>
    if environment = "local" ∧ fu ≠ "" then Except.ok (some ⟨fu, fu, "admin", "local"⟩)
    else auth_callback header_jwt decode
  | none => auth_callback header_jwt decode

/-! ### Session history (`src/main.py` 58-73, 87-119) -/

/-- The history installed by `start_chat`. -/
def initial_history : List MessageRecord :=
  [⟨Role.system, "You are a helpful assistant."⟩]

/-- The event loop of `user_task` inside `handle_message`: `data` events
stream a token (no history change), `message` events append the carried
record, anything else is ignored. -/
def processEvents (hist : List MessageRecord) (events : List Event) : List MessageRecord :=
  events.foldl
    (fun h e =>
      match e with
      | Event.data _ => h
      | Event.message m => h ++ [m]
      | _ => h)
    hist

/-- `handle_message` history effect: append the user record, then run the
generation task's event loop. -/
def handle_message (hist : List MessageRecord) (content : String) (events : List Event) :
    List MessageRecord :=
  processEvents (hist ++ [⟨Role.user, content⟩]) events

/-- History after chat start followed by a sequence of handled messages,
each given as (user content, events streamed by the orchestrator agent). -/
def session_history (calls : List (String × List Event)) : List MessageRecord :=
  calls.foldl (fun h c => handle_message h c.1 c.2) initial_history

/-- The role carried by a `message` event, if the event is one. -/
def eventMessageRole : Event → Option Role
  | Event.message m => some m.role
  | _ => none

/-- Number of system-role records in a history. -/
def countSystem (l : List MessageRecord) : Nat :=
  (l.filter (fun m => m.role = Role.system)).length

/-! ### Cancellation (`src/main.py` 76-84, 114-119) -/

/-- An `asyncio` task handle as far as `on_chat_end` inspects it. -/
structure TaskHandle where
  done : Bool
deriving DecidableEq, Repr

/-- How the generation task finished, as observed by `await task`. -/
inductive TaskOutcome where
  | completed
  | cancelled
  | failed (msg : String)
deriving DecidableEq, Repr

/-- `on_chat_end` (`src/main.py` 76-84): for each of the session keys
`current_task` and `task`, request cancellation iff a task is present and
not done.  Returns the two cancellation-requested flags. -/
def on_chat_end (current_task task : Option TaskHandle) : Bool × Bool :=
  ((match current_task with
    | some t => !t.done
    | none => false),
   (match task with
    | some t => !t.done
    | none => false))

/-- The `try: await task / except asyncio.CancelledError: logger.info(...)`
block closing `handle_message` (`src/main.py` 116-119): first component is
the exception re-raised to the transport layer (`none` = normal return),
second is how many times a cancellation was caught and logged. -/
def await_task (outcome : TaskOutcome) : Option String × Nat :=
  match outcome with
  | TaskOutcome.completed => (none, 0)
  | TaskOutcome.cancelled => (none, 1)
  | TaskOutcome.failed msg => (some msg, 0)

/-! ### Logistics data model (`src/tools/logistics/models.py`) -/

inductive TransportMode where
  | TRUCK
  | TRAIN
  | SHIP
  | AIR
deriving DecidableEq, Repr

inductive ShipmentStatus where
  | PLANNED
  | IN_TRANSIT
  | DELIVERED
  | DELAYED
deriving DecidableEq, Repr

/-- A `ShipmentRecord` (fields as validated by the pydantic model: the
non-negative integer fields are `Nat`, the non-negative float fields `ℚ`). -/
structure ShipmentRecord where
  timestamp : PyDateTime
  shipment_id : String
  origin : String
  destination : String
  transport_mode : TransportMode
  pallets : Nat
  weight_kg : ℚ
  distance_km : ℚ
  status : ShipmentStatus
  delay_minutes : Nat
  cost_eur : ℚ
deriving DecidableEq, Repr

/-- A `LogisticsDataset` (`src/tools/logistics/models.py` 105-136). -/
structure LogisticsDataset where
  records : List ShipmentRecord
  total_shipments : Nat
  delivered : Nat
  delayed : Nat
  avg_delay_minutes : ℚ
  total_weight_kg : ℚ
  total_distance_km : ℚ
  total_cost_eur : ℚ
deriving DecidableEq, Repr

/-- Number of records of a given status, `sum(1 for r in records if r.status == s)`. -/
def countStatus (records : List ShipmentRecord) (s : ShipmentStatus) : Nat :=
  (records.filter (fun r => r.status = s)).length

/-- `LogisticsDataset.from_records` (`src/tools/logistics/models.py` 115-136). -/
def LogisticsDataset.from_records (records : List ShipmentRecord) : LogisticsDataset :=
  if records.isEmpty then
    { records := []
      total_shipments := 0
      delivered := 0
      delayed := 0
      avg_delay_minutes := 0
      total_weight_kg := 0
      total_distance_km := 0
      total_cost_eur := 0 }
  else
    let total_shipments := records.length
    let delivered := countStatus records ShipmentStatus.DELIVERED
    let delayed := countStatus records ShipmentStatus.DELAYED
    let avg_delay :=
      pyRound2 ((records.map (fun r => (r.delay_minutes : ℚ))).sum / (total_shipments : ℚ))
    let total_weight := pyRound1 ((records.map (fun r => r.weight_kg)).sum)
    let total_distance := pyRound1 ((records.map (fun r => r.distance_km)).sum)
    let total_cost := pyRound2 ((records.map (fun r => r.cost_eur)).sum)
    { records := records
      total_shipments := total_shipments
      delivered := delivered
      delayed := delayed
      avg_delay_minutes := avg_delay
      total_weight_kg := total_weight
      total_distance_km := total_distance
      total_cost_eur := total_cost }

/-! ### Logistics tools (`src/tools/logistics/tools.py`)

`ShipmentRecord.synthetic` draws from `random.uniform`/`gauss`/`random`; a
run of the generator corresponds to an oracle `synth` mapping the loop
coordinates `(idx, base_dt, origin, destination)` to the record produced at
that call site.  `LogisticsTools(Dbnames.LOCAL)` is constructed with no
override lists, so the instance defaults are the literals below. -/

/-- `self.default_origins` for the instance built in `agent.py`. -/
def default_origins : List String := ["WH-A", "WH-B"]

/-- `self.default_destinations` for the instance built in `agent.py`. -/
def default_destinations : List String := ["CUST-1", "CUST-2", "CUST-3"]

/-- `get_logistics_data` (`src/tools/logistics/tools.py` 22-56).  Dates are
day ordinals; `base_dt = datetime.combine(day_cursor, datetime.min.time())`
is hour zero of the day.  The destination picked for slot `h` is
`destinations[(h + len(origin)) % len(destinations)]`. -/
def logisticsRecords (synth : Nat → PyDateTime → String → String → ShipmentRecord)
    (from_date to_date : Int) (origins2 destinations2 : List String)
    (hours_per_day : Nat) : List ShipmentRecord :=
  (dayRange from_date to_date).flatMap fun day =>
    origins2.flatMap fun origin =>
      (List.range hours_per_day).map fun h =>
        synth h ⟨day, 0, 0, 0, 0⟩ origin
          (destinations2.getD ((h + origin.length) % destinations2.length) "")

def get_logistics_data (synth : Nat → PyDateTime → String → String → ShipmentRecord)
    (from_date to_date : Int) (origins destinations : Option (List String))
    (hours_per_day : Nat) : Except String LogisticsDataset :=
  if to_date < from_date then Except.error "to_date must be >= from_date"
  else
    Except.ok (LogisticsDataset.from_records
      (logisticsRecords synth from_date to_date
        (resolveDefault origins default_origins)
        (resolveDefault destinations default_destinations) hours_per_day))

/-! ### Production data model (`src/tools/production/models.py`) -/

inductive Shift where
  | A
  | M
  | N
deriving DecidableEq, Repr

/-- `Shift.from_hour` (`src/tools/production/models.py` 19-26). -/
def Shift.from_hour (hour : Nat) : Shift :=
  if 6 ≤ hour ∧ hour < 14 then Shift.A
  else if 14 ≤ hour ∧ hour < 22 then Shift.M
  else Shift.N

/-- A validated `ProductionData` record. -/
structure ProductionData where
  timestamp : PyDateTime
  machine_id : String
  shift : Shift
  temperature : ℚ
  speed : ℚ
  humidity : ℚ
  pressure : ℚ
  operator_experience : ℚ
  scrap_kg : ℚ
  unplanned_stop : Bool
deriving DecidableEq, Repr

/-- The pydantic construction of a `ProductionData`: the declared field
bounds are checked (a violation raises a `ValidationError`), the
`truncate_to_hour` field validator zeroes minute/second/microsecond, and the
`recompute_shift` model validator replaces the supplied shift by
`Shift.from_hour(timestamp.hour)` whenever they differ
(`src/tools/production/models.py` 39-64). -/
def ProductionData.make (timestamp : PyDateTime) (machine_id : String) (shift : Shift)
    (temperature speed humidity pressure operator_experience scrap_kg : ℚ)
    (unplanned_stop : Bool) : Except String ProductionData :=
  if ¬(0 ≤ temperature ∧ temperature ≤ 200) then Except.error "validation: temperature"
  else if ¬(0 ≤ speed ∧ speed ≤ 1000) then Except.error "validation: speed"
  else if ¬(0 ≤ humidity ∧ humidity ≤ 100) then Except.error "validation: humidity"
  else if ¬(0 ≤ pressure ∧ pressure ≤ 50) then Except.error "validation: pressure"
  else if ¬(0 ≤ operator_experience ∧ operator_experience ≤ 50) then
    Except.error "validation: operator_experience"
  else if ¬(0 ≤ scrap_kg) then Except.error "validation: scrap_kg"
  else
    let ts := { timestamp with minute := 0, second := 0, microsecond := 0 }
    let expected := Shift.from_hour ts.hour
    let final_shift := if shift ≠ expected then expected else shift
    Except.ok
      { timestamp := ts
        machine_id := machine_id
        shift := final_shift
        temperature := temperature
        speed := speed
        humidity := humidity
        pressure := pressure
        operator_experience := operator_experience
        scrap_kg := scrap_kg
        unplanned_stop := unplanned_stop }

/-- One call's worth of random draws for `ProductionData.synthetic_record`
(`src/tools/production/models.py` 88-138), named after the call sites. -/
structure ProdRand where
  expDraw : ℚ
  tempNoise : ℚ
  speedDraw : ℚ
  humidityDraw : ℚ
  pressureDraw : ℚ
  pressureNoise : ℚ
  stopDraw : Bool
  scrapNoise : ℚ
deriving DecidableEq, Repr

/-- `ProductionData._synthetic_scrap` (`src/tools/production/models.py`
66-86); `noiseDraw` is the `gauss(0.0, 0.3)` sample. -/
def ProductionData.synthetic_scrap (temperature speed humidity pressure
    operator_experience : ℚ) (unplanned_stop : Bool) (noiseDraw : ℚ) : ℚ :=
  let base := max 0.2 (3.0 - operator_experience * 0.1)
  let temp_penalty := max 0.0 (|temperature - 80| * 0.05)
  let speed_penalty := if 600 < speed then max 0.0 ((speed - 600) * 0.003) else 0.0
  let humidity_penalty := 0.02 * max 0.0 (humidity - 60)
  let pressure_penalty := 0.1 * max 0.0 |pressure - 20|
  let stop_penalty := if unplanned_stop then 5.0 else 0.0
  let noise := max 0.0 noiseDraw
  let scrap := base + temp_penalty + speed_penalty + humidity_penalty +
    pressure_penalty + stop_penalty + noise
  pyRound2 (max scrap 0.0)

/-- `ProductionData.synthetic_record` (`src/tools/production/models.py`
88-138) with the random draws supplied by `rand`. -/
def ProductionData.synthetic_record (machine_id : String) (dt : PyDateTime)
    (operator_experience : Option ℚ) (force_unplanned_stop : Option Bool)
    (rand : ProdRand) : Except String ProductionData :=
  let dt_trunc := { dt with minute := 0, second := 0, microsecond := 0 }
  let shift := Shift.from_hour dt_trunc.hour
  let exp :=
    match operator_experience with
    | some e => e
    | none => pyRound1 rand.expDraw
  let base_temp : ℚ := if shift = Shift.A then 82 else if shift = Shift.M then 80 else 78
  let temperature := pyRound2 (base_temp + rand.tempNoise)
  let speed := pyRound1 (rand.speedDraw + exp * 2)
  let humidity := pyRound1 rand.humidityDraw
  let pressure := pyRound2 (rand.pressureDraw + rand.pressureNoise)
  let unplanned_stop :=
    match force_unplanned_stop with
    | some b => b
    | none => rand.stopDraw
  let scrap := ProductionData.synthetic_scrap temperature speed humidity pressure
    exp unplanned_stop rand.scrapNoise
  ProductionData.make dt_trunc machine_id shift temperature speed humidity pressure
    exp scrap unplanned_stop

/-- A `ProductionDataset` (`src/tools/production/models.py` 155-169). -/
structure ProductionDataset where
  records : List ProductionData
  total_scrap_kg : ℚ
  avg_scrap_kg : ℚ
  unplanned_stops : Nat
deriving DecidableEq, Repr

/-- `ProductionDataset.from_records` (`src/tools/production/models.py` 162-169). -/
def ProductionDataset.from_records (records : List ProductionData) : ProductionDataset :=
  if records.isEmpty then
    { records := [], total_scrap_kg := 0, avg_scrap_kg := 0, unplanned_stops := 0 }
  else
    let total := (records.map (fun r => r.scrap_kg)).sum
    let stops := (records.filter (fun r => r.unplanned_stop)).length
    let avg := pyRound2 (total / (records.length : ℚ))
    { records := records
      total_scrap_kg := pyRound2 total
      avg_scrap_kg := avg
      unplanned_stops := stops }

/-! ### Production tools (`src/tools/production/tools.py`)

The per-hour randomness of `ProductionData.synthetic_record` is supplied by
an oracle `rand` mapping the call-site arguments `(machine_id, dt)` to that
call's draws; every call site within one `get_production_data` run has a
distinct `(machine_id, dt)` pair, so any combination of draws is
representable.  A record whose drawn or supplied values violate the pydantic
field bounds raises a `ValidationError` inside the generation loop, which
propagates out of the tool exactly as in the source. -/

/-- `self.default_machines` for the instance built in `agent.py`. -/
def default_machines : List String := ["M-01"]

/-- The effect of a Python loop `[f(a) for a in l]` over fallible `f`: the
results in order, or the first raised exception. -/
def exceptMap {α β : Type} (f : α → Except String β) : List α → Except String (List β)
  | [] => Except.ok []
  | a :: rest =>
    match f a with
    | Except.error e => Except.error e
    | Except.ok b =>
      match exceptMap f rest with
      | Except.error e => Except.error e
      | Except.ok bs => Except.ok (b :: bs)

/-- The effect of nested `for` loops extending one list with fallible inner
batches: the concatenation in order, or the first raised exception. -/
def exceptFlatMap {α β : Type} (f : α → Except String (List β)) :
    List α → Except String (List β)
  | [] => Except.ok []
  | a :: rest =>
    match f a with
    | Except.error e => Except.error e
    | Except.ok bs =>
      match exceptFlatMap f rest with
      | Except.error e => Except.error e
      | Except.ok rest2 => Except.ok (bs ++ rest2)

/-- `ProductionData.synthetic_day` (`src/tools/production/models.py`
140-152): 24 hourly records built by `synthetic_record` (with
`force_unplanned_stop` left at its `None` default); `start` is the day at
hour 0 and record `i` uses `start + timedelta(hours=i)`.  A
`ValidationError` raised by any `synthetic_record` call propagates. -/
def synthetic_day (rand : String → PyDateTime → ProdRand)
    (machine_id : String) (day : Int) (operator_experience : Option ℚ) :
    Except String (List ProductionData) :=
  exceptMap
    (fun i => ProductionData.synthetic_record machine_id ⟨day, i, 0, 0, 0⟩
      operator_experience none (rand machine_id ⟨day, i, 0, 0, 0⟩))
    (List.range 24)

/-- The `all_records` accumulation loop of `get_production_data`
(`src/tools/production/tools.py` 45-57). -/
def productionRecords (rand : String → PyDateTime → ProdRand)
    (from_date to_date : Int) (machine_ids : List String)
    (operator_experience : Option ℚ) : Except String (List ProductionData) :=
  exceptFlatMap
    (fun day =>
      exceptFlatMap (fun mid => synthetic_day rand mid day operator_experience)
        machine_ids)
    (dayRange from_date to_date)

/-- `get_production_data` (`src/tools/production/tools.py` 21-62). -/
def get_production_data (rand : String → PyDateTime → ProdRand)
    (from_date to_date : Int) (machines : Option (List String))
    (operator_experience : Option ℚ) : Except String ProductionDataset :=
  if to_date < from_date then Except.error "to_date must be >= from_date"
  else
    match productionRecords rand from_date to_date
        (resolveDefault machines default_machines) operator_experience with
    | Except.error e => Except.error e
    | Except.ok all_records => Except.ok (ProductionDataset.from_records all_records)

/-! ### Weather data model and tool (`src/tools/weather/`) -/

/-- A reading: every reading model is a `(time, value)` pair; humidity is an
`int` in Python, the rest are floats. -/
structure Reading where
  time : Int
  value : ℚ
deriving DecidableEq, Repr

structure IntReading where
  time : Int
  value : Int
deriving DecidableEq, Repr

/-- `MeteoData` (`src/tools/weather/models.py` 43-50). -/
structure MeteoData where
  temperature : List Reading
  humidity : List IntReading
  apparent_temperature : List Reading
  precipitation : List Reading
  evapotranspiration : List Reading
  surface_pressure : List Reading
deriving DecidableEq, Repr

/-- The parsed `data['hourly']` object of the open-meteo response: a `time`
array (ISO strings modelled by their parsed timestamps) and one parallel
array per requested metric. -/
structure HourlyData where
  time : List Int
  temperature_2m : List ℚ
  relative_humidity_2m : List Int
  apparent_temperature : List ℚ
  precipitation : List ℚ
  evapotranspiration : List ℚ
  surface_pressure : List ℚ
deriving DecidableEq, Repr

/-- Python `lst[i]`: raises `IndexError` when out of range. -/
def pyIndex {α : Type} (l : List α) (i : Nat) : Except String α :=
  if h : i < l.length then Except.ok (l.get ⟨i, h⟩)
  else Except.error "list index out of range"

/-- The validated constructors of the reading models: pydantic bounds
`0 <= humidity <= 100`, `precipitation >= 0`, `surface_pressure > 0`
(`src/tools/weather/models.py`). -/
def mkHumidityReading (time : Int) (value : Int) : Except String IntReading :=
  if 0 ≤ value ∧ value ≤ 100 then Except.ok ⟨time, value⟩
  else Except.error "validation: humidity"

def mkPrecipitationReading (time : Int) (value : ℚ) : Except String Reading :=
  if 0 ≤ value then Except.ok ⟨time, value⟩
  else Except.error "validation: precipitation"

def mkSurfacePressureReading (time : Int) (value : ℚ) : Except String Reading :=
  if 0 < value then Except.ok ⟨time, value⟩
  else Except.error "validation: surface_pressure"

/-- The `for iso in data['hourly']['time']` loop of `get_hourly_weather_data`
(`src/tools/weather/tools.py` 57-76): each metric list is indexed at
`data['hourly']['time'].index(iso)` (first occurrence, as Python's
`list.index`). -/
def buildMeteo (hd : HourlyData) : List Int → Except String MeteoData
  | [] => Except.ok ⟨[], [], [], [], [], []⟩
  | iso :: rest => do
    let i := hd.time.indexOf iso
    let t ← pyIndex hd.temperature_2m i
    let hu ← pyIndex hd.relative_humidity_2m i
    let ap ← pyIndex hd.apparent_temperature i
    let pr ← pyIndex hd.precipitation i
    let ev ← pyIndex hd.evapotranspiration i
    let sp ← pyIndex hd.surface_pressure i
    let hur ← mkHumidityReading iso hu
    let prr ← mkPrecipitationReading iso pr
    let spr ← mkSurfacePressureReading iso sp
    let m ← buildMeteo hd rest
    Except.ok
      { temperature := ⟨iso, t⟩ :: m.temperature
        humidity := hur :: m.humidity
        apparent_temperature := ⟨iso, ap⟩ :: m.apparent_temperature
        precipitation := prr :: m.precipitation
        evapotranspiration := ⟨iso, ev⟩ :: m.evapotranspiration
        surface_pressure := spr :: m.surface_pressure }

/-- The request URL built by `get_hourly_weather_data`
(`src/tools/weather/tools.py` 34-41); dates are formatted from the day
ordinals. -/
def weatherUrl (latitude longitude : ℚ) (from_date to_date : Int) : String :=
  "https://api.open-meteo.com/v1/forecast?latitude=" ++ toString latitude ++
    "&longitude=" ++ toString longitude ++
    "&hourly=temperature_2m,relative_humidity_2m,apparent_temperature,precipitation,evapotranspiration,surface_pressure" ++
    "&start_date=" ++ toString from_date ++ "&end_date=" ++ toString to_date

/-- `get_hourly_weather_data` (`src/tools/weather/tools.py` 22-77): no check
relates `from_date` and `to_date`; the range is formatted into the URL, the
response for that URL (`fetch` models the network) is parsed, and the
`MeteoData` is built from whatever came back. -/
def get_hourly_weather_data (latitude longitude : ℚ) (from_date to_date : Int)
    (fetch : String → HourlyData) : Except String MeteoData :=
  let hd := fetch (weatherUrl latitude longitude from_date to_date)
  buildMeteo hd hd.time

/-! ### Helper lemmas -/

theorem length_flatMap_const {α β : Type} (l : List α) (f : α → List β) (k : Nat)
    (h : ∀ a ∈ l, (f a).length = k) : (l.flatMap f).length = l.length * k := by
  induction l with
  | nil => simp
  | cons a rest ih =>
    have h1 : (f a).length = k := h a (List.mem_cons_self a rest)
    have h2 := ih (fun x hx => h x (List.mem_cons_of_mem a hx))
    simp [List.flatMap_cons, List.length_append, h1, h2]
    ring

theorem dayRange_length (from_date to_date : Int) :
    (dayRange from_date to_date).length = (to_date + 1 - from_date).toNat := by
  rw [dayRange, List.length_map, List.length_range]

theorem from_records_total (records : List ShipmentRecord) :
    (LogisticsDataset.from_records records).total_shipments = records.length := by
  cases records with
  | nil => rfl
  | cons r rest => simp [LogisticsDataset.from_records]

theorem from_records_delivered (records : List ShipmentRecord) :
    (LogisticsDataset.from_records records).delivered =
      countStatus records ShipmentStatus.DELIVERED := by
  cases records with
  | nil => rfl
  | cons r rest => simp [LogisticsDataset.from_records]

theorem from_records_delayed (records : List ShipmentRecord) :
    (LogisticsDataset.from_records records).delayed =
      countStatus records ShipmentStatus.DELAYED := by
  cases records with
  | nil => rfl
  | cons r rest => simp [LogisticsDataset.from_records]

theorem countStatus_partition (records : List ShipmentRecord) :
    records.length =
      countStatus records ShipmentStatus.DELIVERED +
      countStatus records ShipmentStatus.DELAYED +
      countStatus records ShipmentStatus.IN_TRANSIT +
      countStatus records ShipmentStatus.PLANNED := by
  induction records with
  | nil => rfl
  | cons r rest ih =>
    cases h : r.status <;>
      simp [countStatus, List.filter_cons, h] at ih ⊢ <;> omega

theorem prod_from_records_length (records : List ProductionData) :
    (ProductionDataset.from_records records).records.length = records.length := by
  cases records with
  | nil => rfl
  | cons r rest => simp [ProductionDataset.from_records]

theorem logistics_from_records_length (records : List ShipmentRecord) :
    (LogisticsDataset.from_records records).records.length = records.length := by
  cases records with
  | nil => rfl
  | cons r rest => simp [LogisticsDataset.from_records]

/-- The records appended to history by one event stream: exactly the payloads
of its `message` events, in order. -/
def appendedRecords (events : List Event) : List MessageRecord :=
  events.filterMap fun e =>
    match e with
    | Event.message m => some m
    | _ => none

theorem processEvents_eq (hist : List MessageRecord) (events : List Event) :
    processEvents hist events = hist ++ appendedRecords events := by
  induction events generalizing hist with
  | nil => simp [processEvents, appendedRecords]
  | cons e rest ih =>
    cases e with
    | delta t => simpa [processEvents, appendedRecords] using ih hist
    | deltaNoText => simpa [processEvents, appendedRecords] using ih hist
    | data s => simpa [processEvents, appendedRecords] using ih hist
    | message m =>
      simpa [processEvents, appendedRecords, List.append_assoc] using ih (hist ++ [m])
    | text s => simpa [processEvents, appendedRecords] using ih hist
    | other => simpa [processEvents, appendedRecords] using ih hist

theorem handle_message_eq (hist : List MessageRecord) (content : String)
    (events : List Event) :
    handle_message hist content events =
      hist ++ [⟨Role.user, content⟩] ++ appendedRecords events := by
  simp [handle_message, processEvents_eq]

theorem countSystem_append (a b : List MessageRecord) :
    countSystem (a ++ b) = countSystem a + countSystem b := by
  simp [countSystem, List.filter_append]

theorem countSystem_appendedRecords (events : List Event)
    (h : ∀ e ∈ events, eventMessageRole e ≠ some Role.system) :
    countSystem (appendedRecords events) = 0 := by
  induction events with
  | nil => rfl
  | cons e rest ih =>
    have hrest := ih (fun x hx => h x (List.mem_cons_of_mem e hx))
    cases e with
    | message m =>
      have hm : m.role ≠ Role.system := by
        intro hrole
        exact h (Event.message m) (List.mem_cons_self _ _) (by simp [eventMessageRole, hrole])
      simp [appendedRecords, countSystem, List.filter_cons, hm] at hrest ⊢
      simpa [appendedRecords, countSystem] using hrest
    | delta t => simpa [appendedRecords] using hrest
    | deltaNoText => simpa [appendedRecords] using hrest
    | data s => simpa [appendedRecords] using hrest
    | text s => simpa [appendedRecords] using hrest
    | other => simpa [appendedRecords] using hrest

theorem session_history_foldl_count (calls : List (String × List Event))
    (hist : List MessageRecord)
    (hmsg : ∀ c ∈ calls, ∀ e ∈ c.2, eventMessageRole e ≠ some Role.system) :
    countSystem (calls.foldl (fun h c => handle_message h c.1 c.2) hist) =
      countSystem hist := by
  induction calls generalizing hist with
  | nil => rfl
  | cons c rest ih =>
    have hc := fun e he => hmsg c (List.mem_cons_self c rest) e he
    have hrest := fun c2 hc2 => hmsg c2 (List.mem_cons_of_mem c hc2)
    have step : countSystem (handle_message hist c.1 c.2) = countSystem hist := by
      rw [handle_message_eq, countSystem_append, countSystem_append,
        countSystem_appendedRecords c.2 hc]
      simp [countSystem]
    calc countSystem ((c :: rest).foldl (fun h c => handle_message h c.1 c.2) hist)
        = countSystem (rest.foldl (fun h c => handle_message h c.1 c.2)
            (handle_message hist c.1 c.2)) := rfl
      _ = countSystem (handle_message hist c.1 c.2) := ih _ hrest
      _ = countSystem hist := step

theorem session_history_foldl_extends (calls : List (String × List Event))
    (hist : List MessageRecord) :
    ∃ suffix, calls.foldl (fun h c => handle_message h c.1 c.2) hist = hist ++ suffix := by
  induction calls generalizing hist with
  | nil => exact ⟨[], by simp⟩
  | cons c rest ih =>
    obtain ⟨suf, hsuf⟩ := ih (handle_message hist c.1 c.2)
    refine ⟨[⟨Role.user, c.1⟩] ++ appendedRecords c.2 ++ suf, ?_⟩
    calc (c :: rest).foldl (fun h c => handle_message h c.1 c.2) hist
        = rest.foldl (fun h c => handle_message h c.1 c.2)
            (handle_message hist c.1 c.2) := rfl
      _ = handle_message hist c.1 c.2 ++ suf := hsuf
      _ = hist ++ ([⟨Role.user, c.1⟩] ++ appendedRecords c.2 ++ suf) := by
          rw [handle_message_eq]; simp [List.append_assoc]

/-! ### Claim theorems -/

/-- C2: for every specialist assistant (logistics, production, weather), if an
exception with message `msg` is raised during its internal generation after
yielding `events`, the wrapper propagates no exception across the tool
boundary; it yields exactly one additional event, whose text is
`"Error in research assistant: "` followed by the exception message, and then
completes normally. -/
theorem specialist_error_event (events : List Event) (msg : String) :
    logistics_assistant events (some msg) =
      (events ++ [Event.text ("Error in research assistant: " ++ msg)], none) ∧
    production_assistant events (some msg) =
      (events ++ [Event.text ("Error in research assistant: " ++ msg)], none) ∧
    weather_assistant events (some msg) =
      (events ++ [Event.text ("Error in research assistant: " ++ msg)], none) ∧
    (logistics_assistant events (some msg)).1.length = events.length + 1 ∧
    (production_assistant events (some msg)).1.length = events.length + 1 ∧
    (weather_assistant events (some msg)).1.length = events.length + 1 := by
  refine ⟨rfl, rfl, rfl, ?_, ?_, ?_⟩ <;>
    simp [logistics_assistant, production_assistant, weather_assistant]

/-- C4: the `stream_to_step` decorator yields downstream exactly the event
sequence produced by the wrapped function — element for element, in order,
with no event dropped, reordered, or modified — whether or not a step exists. -/
theorem stream_pass_through (hasStep : Bool) (events : List Event) :
    (stream_to_step hasStep events).downstream = events := by
  have h := streamLoop_spec hasStep events ""
  simp [stream_to_step, h]

/-- C7: after chat start the history is exactly one system record; every
mutation performed by the message handler appends records (a user record then
the records of `message` events), so provided the externally produced
`message` events never carry the system role (the orchestrator persona is
held outside the history by the agent framework), the system record remains
the unique system record at position zero after any sequence of handled
messages. -/
theorem history_system_invariant (calls : List (String × List Event))
    (hmsg : ∀ c ∈ calls, ∀ e ∈ c.2, eventMessageRole e ≠ some Role.system) :
    initial_history = [⟨Role.system, "You are a helpful assistant."⟩] ∧
    (∀ hist content events,
      handle_message hist content events =
        hist ++ [⟨Role.user, content⟩] ++ appendedRecords events) ∧
    (session_history calls).head? = some ⟨Role.system, "You are a helpful assistant."⟩ ∧
    countSystem (session_history calls) = 1 := by
  refine ⟨rfl, handle_message_eq, ?_, ?_⟩
  · obtain ⟨suf, hsuf⟩ := session_history_foldl_extends calls initial_history
    rw [session_history, hsuf]
    rfl
  · rw [session_history, session_history_foldl_count calls initial_history hmsg]
    rfl

/-- C7 witness: a concrete session of one handled message whose stream
carries a data event and an assistant message event. -/
theorem history_system_invariant_witness :
    (∀ c ∈ [("hi", [Event.data "x", Event.message ⟨Role.assistant, "ok"⟩])],
      ∀ e ∈ c.2, eventMessageRole e ≠ some Role.system) ∧
    ((session_history [("hi", [Event.data "x", Event.message ⟨Role.assistant, "ok"⟩])]).head? =
        some ⟨Role.system, "You are a helpful assistant."⟩ ∧
      countSystem (session_history
        [("hi", [Event.data "x", Event.message ⟨Role.assistant, "ok"⟩])]) = 1) :=
  ⟨by decide,
    (history_system_invariant
      [("hi", [Event.data "x", Event.message ⟨Role.assistant, "ok"⟩])]
      (by decide)).2.2⟩

/-- C8: on chat end an unfinished task receives a cancellation request, and
the resulting cancellation is absorbed at the controller's top-level await:
`await_task` on a cancelled outcome re-raises nothing to the transport layer
and catches/logs the cancellation exactly once. -/
theorem cancellation_caught_once (current : Option TaskHandle) (t : TaskHandle)
    (h : t.done = false) :
    (on_chat_end current (some t)).2 = true ∧
    await_task TaskOutcome.cancelled = (none, 1) := by
  constructor
  · simp [on_chat_end, h]
  · rfl

/-- C8 witness: a present, unfinished task. -/
theorem cancellation_caught_once_witness :
    (TaskHandle.mk false).done = false ∧
    ((on_chat_end none (some ⟨false⟩)).2 = true ∧
      await_task TaskOutcome.cancelled = (none, 1)) :=
  ⟨rfl, cancellation_caught_once none ⟨false⟩ rfl⟩

/-- C5: for every record list, `LogisticsDataset.from_records` sets
`total_shipments` to the number of records, which equals the sum of the four
per-status counts (delivered + delayed + in-transit + planned), and sets
`avg_delay_minutes` to the delay sum divided by `total_shipments` rounded to
two decimals, with `avg_delay_minutes = 0` on an empty record list. -/
theorem logistics_aggregates (records : List ShipmentRecord) :
    (LogisticsDataset.from_records records).total_shipments = records.length ∧
    (LogisticsDataset.from_records records).total_shipments =
      (LogisticsDataset.from_records records).delivered +
      (LogisticsDataset.from_records records).delayed +
      countStatus records ShipmentStatus.IN_TRANSIT +
      countStatus records ShipmentStatus.PLANNED ∧
    (LogisticsDataset.from_records records).avg_delay_minutes =
      (if records.isEmpty then 0
       else pyRound2 ((records.map (fun r => (r.delay_minutes : ℚ))).sum /
         ((LogisticsDataset.from_records records).total_shipments : ℚ))) := by
  refine ⟨from_records_total records, ?_, ?_⟩
  · rw [from_records_total, from_records_delivered, from_records_delayed]
    exact countStatus_partition records
  · cases records with
    | nil => rfl
    | cons r rest =>
      rw [from_records_total]
      simp [LogisticsDataset.from_records]

/-- C10: every `ProductionData` that passes model validation — whatever shift
was supplied at construction — has its timestamp truncated to the hour
(minute, second, microsecond all zero) and its `shift` equal to
`Shift.from_hour` of the timestamp's hour; every record built by
`synthetic_record` satisfies the same; and `Shift.from_hour` maps hours 6-13
to `A`, 14-21 to `M`, and all other hours to `N`. -/
theorem production_shift_invariant :
    (∀ (ts : PyDateTime) (mid : String) (sh : Shift)
        (temp spd hum pres oe sc : ℚ) (us : Bool) (r : ProductionData),
      ProductionData.make ts mid sh temp spd hum pres oe sc us = Except.ok r →
        r.timestamp.minute = 0 ∧ r.timestamp.second = 0 ∧
        r.timestamp.microsecond = 0 ∧ r.shift = Shift.from_hour r.timestamp.hour) ∧
    (∀ (mid : String) (dt : PyDateTime) (oe : Option ℚ) (fs : Option Bool)
        (rand : ProdRand) (r : ProductionData),
      ProductionData.synthetic_record mid dt oe fs rand = Except.ok r →
        r.timestamp.minute = 0 ∧ r.timestamp.second = 0 ∧
        r.timestamp.microsecond = 0 ∧ r.shift = Shift.from_hour r.timestamp.hour) ∧
    (∀ h : Nat,
      (6 ≤ h ∧ h ≤ 13 → Shift.from_hour h = Shift.A) ∧
      (14 ≤ h ∧ h ≤ 21 → Shift.from_hour h = Shift.M) ∧
      (h < 6 ∨ 22 ≤ h → Shift.from_hour h = Shift.N)) := by
  have hmake : ∀ (ts : PyDateTime) (mid : String) (sh : Shift)
      (temp spd hum pres oe sc : ℚ) (us : Bool) (r : ProductionData),
      ProductionData.make ts mid sh temp spd hum pres oe sc us = Except.ok r →
        r.timestamp.minute = 0 ∧ r.timestamp.second = 0 ∧
        r.timestamp.microsecond = 0 ∧ r.shift = Shift.from_hour r.timestamp.hour := by
    intro ts mid sh temp spd hum pres oe sc us r hr
    rw [ProductionData.make] at hr
    split at hr
    · exact absurd hr (by simp)
    split at hr
    · exact absurd hr (by simp)
    split at hr
    · exact absurd hr (by simp)
    split at hr
    · exact absurd hr (by simp)
    split at hr
    · exact absurd hr (by simp)
    split at hr
    · exact absurd hr (by simp)
    simp only [Except.ok.injEq] at hr
    subst hr
    refine ⟨rfl, rfl, rfl, ?_⟩
    by_cases hsh : sh = Shift.from_hour ts.hour
    · simp [hsh]
    · simp [hsh]
  refine ⟨hmake, ?_, ?_⟩
  · intro mid dt oe fs rand r hr
    exact hmake _ _ _ _ _ _ _ _ _ _ _ hr
  · intro h
    refine ⟨?_, ?_, ?_⟩ <;> intro hh
    · rw [Shift.from_hour, if_pos (by omega : 6 ≤ h ∧ h < 14)]
    · rw [Shift.from_hour, if_neg (by omega : ¬(6 ≤ h ∧ h < 14)),
        if_pos (by omega : 14 ≤ h ∧ h < 22)]
    · rw [Shift.from_hour, if_neg (by omega : ¬(6 ≤ h ∧ h < 14)),
        if_neg (by omega : ¬(14 ≤ h ∧ h < 22))]

/-- C10 witness: a validated record built with a deliberately wrong shift and
an unaligned timestamp, and a record built by `synthetic_record`. -/
theorem production_shift_invariant_witness :
    ((⟨⟨0, 7, 0, 0, 0⟩, "M-01", Shift.A, 80, 600, 50, 20, 10, 1, true⟩ :
        ProductionData).timestamp.minute = 0 ∧
      (⟨⟨0, 7, 0, 0, 0⟩, "M-01", Shift.A, 80, 600, 50, 20, 10, 1, true⟩ :
        ProductionData).timestamp.second = 0 ∧
      (⟨⟨0, 7, 0, 0, 0⟩, "M-01", Shift.A, 80, 600, 50, 20, 10, 1, true⟩ :
        ProductionData).timestamp.microsecond = 0 ∧
      (⟨⟨0, 7, 0, 0, 0⟩, "M-01", Shift.A, 80, 600, 50, 20, 10, 1, true⟩ :
          ProductionData).shift =
        Shift.from_hour (⟨⟨0, 7, 0, 0, 0⟩, "M-01", Shift.A, 80, 600, 50, 20,
          10, 1, true⟩ : ProductionData).timestamp.hour) :=
  production_shift_invariant.1 ⟨0, 7, 30, 10, 5⟩ "M-01" Shift.N 80 600 50 20 10 1 true
    _ rfl

theorem logisticsRecords_length (synth : Nat → PyDateTime → String → String → ShipmentRecord)
    (f t : Int) (origins2 destinations2 : List String) (hpd : Nat) :
    (logisticsRecords synth f t origins2 destinations2 hpd).length =
      (t + 1 - f).toNat * origins2.length * hpd := by
  rw [logisticsRecords]
  rw [length_flatMap_const _ _ (origins2.length * hpd) ?_, dayRange_length, Nat.mul_assoc]
  intro day _
  rw [length_flatMap_const _ _ hpd ?_]
  intro origin _
  rw [List.length_map, List.length_range]

theorem exceptMap_ok_length {α β : Type} (f : α → Except String β) (l : List α)
    (ys : List β) (h : exceptMap f l = Except.ok ys) : ys.length = l.length := by
  induction l generalizing ys with
  | nil =>
    rw [exceptMap] at h
    simp only [Except.ok.injEq] at h
    subst h
    rfl
  | cons a rest ih =>
    rw [exceptMap] at h
    cases hfa : f a with
    | error e => rw [hfa] at h; exact absurd h (by simp)
    | ok b =>
      rw [hfa] at h
      cases hrec : exceptMap f rest with
      | error e => rw [hrec] at h; exact absurd h (by simp)
      | ok bs =>
        rw [hrec] at h
        simp only [Except.ok.injEq] at h
        subst h
        simp [ih bs hrec]

theorem exceptFlatMap_ok_length {α β : Type} (f : α → Except String (List β)) (l : List α)
    (k : Nat) (ys : List β)
    (hall : ∀ a ∈ l, ∀ zs, f a = Except.ok zs → zs.length = k)
    (h : exceptFlatMap f l = Except.ok ys) : ys.length = l.length * k := by
  induction l generalizing ys with
  | nil =>
    rw [exceptFlatMap] at h
    simp only [Except.ok.injEq] at h
    subst h
    simp
  | cons a rest ih =>
    rw [exceptFlatMap] at h
    cases hfa : f a with
    | error e => rw [hfa] at h; exact absurd h (by simp)
    | ok bs =>
      rw [hfa] at h
      cases hrec : exceptFlatMap f rest with
      | error e => rw [hrec] at h; exact absurd h (by simp)
      | ok rest2 =>
        rw [hrec] at h
        simp only [Except.ok.injEq] at h
        subst h
        have hb := hall a (List.mem_cons_self a rest) bs hfa
        have hr := ih rest2
          (fun x hx zs hz => hall x (List.mem_cons_of_mem a hx) zs hz) hrec
        rw [List.length_append, hb, hr, List.length_cons]
        ring

theorem synthetic_day_ok_length (rand : String → PyDateTime → ProdRand)
    (mid : String) (day : Int) (oe : Option ℚ) (recs : List ProductionData)
    (h : synthetic_day rand mid day oe = Except.ok recs) : recs.length = 24 := by
  have hl := exceptMap_ok_length _ _ _ h
  simpa using hl

theorem productionRecords_ok_length (rand : String → PyDateTime → ProdRand)
    (f t : Int) (machine_ids : List String) (oe : Option ℚ) (l : List ProductionData)
    (h : productionRecords rand f t machine_ids oe = Except.ok l) :
    l.length = (t + 1 - f).toNat * machine_ids.length * 24 := by
  rw [productionRecords] at h
  rw [exceptFlatMap_ok_length _ _ (machine_ids.length * 24) _ ?_ h,
    dayRange_length, Nat.mul_assoc]
  intro day _ zs hz
  exact exceptFlatMap_ok_length _ _ 24 _
    (fun mid _ ws hw => synthetic_day_ok_length _ _ _ _ _ hw) hz

theorem resolveDefault_of_ne_nil (l dflt : List String) (h : l ≠ []) :
    resolveDefault (some l) dflt = l := by
  rw [resolveDefault, if_neg]
  simp [List.isEmpty_iff, h]

theorem get_production_data_ok_length (rand : String → PyDateTime → ProdRand)
    (f t : Int) (machines : List String) (oe : Option ℚ) (dp : ProductionDataset)
    (hft : f ≤ t) (hm : machines ≠ [])
    (h : get_production_data rand f t (some machines) oe = Except.ok dp) :
    dp.records.length = (t + 1 - f).toNat * machines.length * 24 := by
  rw [get_production_data, if_neg (by omega : ¬ t < f),
    resolveDefault_of_ne_nil machines _ hm] at h
  cases hrec : productionRecords rand f t machines oe with
  | error e => rw [hrec] at h; exact absurd h (by simp)
  | ok l =>
    rw [hrec] at h
    simp only [Except.ok.injEq] at h
    subst h
    rw [prod_from_records_length, productionRecords_ok_length _ _ _ _ _ _ hrec]

/-- C9 counterexample: with the valid one-day range `from = to = 0` and the
machine list `["M-01"]`, a call of `get_production_data` with
`operator_experience = 51` deterministically raises the pydantic validation
error for the `operator_experience` field bound (`le=50`) — whatever the
random draws — and so produces no dataset at all; two calls with these
identical explicit parameters therefore do not produce datasets with equal
record counts. -/
theorem production_validation_counterexample :
    (0 : Int) ≤ 0 ∧
    get_production_data (fun _ _ => ⟨0, 0, 600, 50, 20, 0, false, 0⟩) 0 0
        (some ["M-01"]) (some 51) =
      Except.error "validation: operator_experience" :=
  ⟨by decide, rfl⟩

/-- C9 amended: for a valid range and a fixed nonempty origin list, two runs
of `get_logistics_data` with identical explicit parameters but independent
random draws always both succeed with exactly days x origins x hours_per_day
records each; a `get_production_data` run may instead raise a pydantic
`ValidationError` during record construction (for instance for an
out-of-range `operator_experience`), but whenever two runs with identical
explicit parameters and independent draws both produce datasets, their
record counts are exactly equal — days x machines x 24 — even though the
stochastic field values may differ. -/
theorem idempotent_record_counts
    (synthS1 synthS2 : Nat → PyDateTime → String → String → ShipmentRecord)
    (rand1 rand2 : String → PyDateTime → ProdRand)
    (f t : Int) (origins destinations machines : List String) (hpd : Nat) (oe : Option ℚ)
    (dp1 dp2 : ProductionDataset)
    (hft : f ≤ t) (ho : origins ≠ []) (hm : machines ≠ [])
    (h1 : get_production_data rand1 f t (some machines) oe = Except.ok dp1)
    (h2 : get_production_data rand2 f t (some machines) oe = Except.ok dp2) :
    ∃ ds1 ds2,
      get_logistics_data synthS1 f t (some origins) (some destinations) hpd = Except.ok ds1 ∧
      get_logistics_data synthS2 f t (some origins) (some destinations) hpd = Except.ok ds2 ∧
      ds1.records.length = ds2.records.length ∧
      dp1.records.length = dp2.records.length ∧
      ds1.total_shipments = ds1.records.length ∧
      ds1.records.length = (t + 1 - f).toNat * origins.length * hpd ∧
      dp1.records.length = (t + 1 - f).toNat * machines.length * 24 := by
  have hno : ¬ t < f := by omega
  have hlog : ∀ synth : Nat → PyDateTime → String → String → ShipmentRecord,
      get_logistics_data synth f t (some origins) (some destinations) hpd =
        Except.ok (LogisticsDataset.from_records
          (logisticsRecords synth f t origins
            (resolveDefault (some destinations) default_destinations) hpd)) := by
    intro synth
    rw [get_logistics_data, if_neg hno, resolveDefault_of_ne_nil origins _ ho]
  have hp1 := get_production_data_ok_length rand1 f t machines oe dp1 hft hm h1
  have hp2 := get_production_data_ok_length rand2 f t machines oe dp2 hft hm h2
  refine ⟨_, _, hlog synthS1, hlog synthS2, ?_, ?_, ?_, ?_, hp1⟩
  · rw [logistics_from_records_length, logistics_from_records_length,
      logisticsRecords_length, logisticsRecords_length]
  · rw [hp1, hp2]
  · rw [from_records_total, logistics_from_records_length]
  · rw [logistics_from_records_length, logisticsRecords_length]

/-- The dataset produced by the first benign constant-draw run of
`get_production_data` in the C9 witness. -/
def witnessProdDataset1 : ProductionDataset :=
  match productionRecords (fun _ _ => ⟨5, 0, 600, 50, 20, 0, false, 0⟩)
      0 0 ["M-01"] (some 10) with
  | Except.ok l => ProductionDataset.from_records l
  | Except.error _ => ⟨[], 0, 0, 0⟩

/-- The dataset produced by the second benign constant-draw run of
`get_production_data` in the C9 witness (different draws, same parameters). -/
def witnessProdDataset2 : ProductionDataset :=
  match productionRecords (fun _ _ => ⟨5, 1, 610, 45, 21, 0, false, 0⟩)
      0 0 ["M-01"] (some 10) with
  | Except.ok l => ProductionDataset.from_records l
  | Except.error _ => ⟨[], 0, 0, 0⟩

/-- C9 witness: one day, one origin, one machine, two slots per day; both
production runs succeed (their draws pass validation) with different
stochastic values and identical counts. -/
theorem idempotent_record_counts_witness :
    ((0 : Int) ≤ 0 ∧ (["WH-A"] : List String) ≠ [] ∧ (["M-01"] : List String) ≠ [] ∧
      get_production_data (fun _ _ => ⟨5, 0, 600, 50, 20, 0, false, 0⟩) 0 0
          (some ["M-01"]) (some 10) = Except.ok witnessProdDataset1 ∧
      get_production_data (fun _ _ => ⟨5, 1, 610, 45, 21, 0, false, 0⟩) 0 0
          (some ["M-01"]) (some 10) = Except.ok witnessProdDataset2) ∧
    (∃ ds1 ds2,
      get_logistics_data
          (fun _ _ _ _ => ⟨⟨0, 0, 0, 0, 0⟩, "S", "WH-A", "CUST-1", TransportMode.TRUCK,
            0, 0, 0, ShipmentStatus.DELIVERED, 0, 0⟩)
          0 0 (some ["WH-A"]) (some ["CUST-1"]) 2 = Except.ok ds1 ∧
      get_logistics_data
          (fun _ _ _ _ => ⟨⟨0, 0, 0, 0, 0⟩, "S", "WH-A", "CUST-1", TransportMode.TRUCK,
            0, 0, 0, ShipmentStatus.DELAYED, 1, 0⟩)
          0 0 (some ["WH-A"]) (some ["CUST-1"]) 2 = Except.ok ds2 ∧
      ds1.records.length = ds2.records.length ∧
      witnessProdDataset1.records.length = witnessProdDataset2.records.length ∧
      ds1.total_shipments = ds1.records.length ∧
      ds1.records.length = ((0 : Int) + 1 - 0).toNat * (["WH-A"] : List String).length * 2 ∧
      witnessProdDataset1.records.length =
        ((0 : Int) + 1 - 0).toNat * (["M-01"] : List String).length * 24) :=
  ⟨⟨by decide, by decide, by decide, rfl, rfl⟩,
    idempotent_record_counts
      (fun _ _ _ _ => ⟨⟨0, 0, 0, 0, 0⟩, "S", "WH-A", "CUST-1", TransportMode.TRUCK,
        0, 0, 0, ShipmentStatus.DELIVERED, 0, 0⟩)
      (fun _ _ _ _ => ⟨⟨0, 0, 0, 0, 0⟩, "S", "WH-A", "CUST-1", TransportMode.TRUCK,
        0, 0, 0, ShipmentStatus.DELAYED, 1, 0⟩)
      (fun _ _ => ⟨5, 0, 600, 50, 20, 0, false, 0⟩)
      (fun _ _ => ⟨5, 1, 610, 45, 21, 0, false, 0⟩)
      0 0 ["WH-A"] ["CUST-1"] ["M-01"] 2 (some 10)
      witnessProdDataset1 witnessProdDataset2
      (by decide) (by decide) (by decide) rfl rfl⟩

theorem forwardedDeltas_take_drop (hasStep : Bool) (events : List Event) (n : Nat) :
    forwardedDeltas hasStep (events.take n) ++ forwardedDeltas hasStep (events.drop n) =
      forwardedDeltas hasStep events := by
  rw [forwardedDeltas, forwardedDeltas, forwardedDeltas, ← List.filterMap_append,
    List.take_append_drop]

theorem stream_to_step_output (hasStep : Bool) (events : List Event) :
    (stream_to_step hasStep events).step_output =
      (if hasStep then
        some (if joinAll (forwardedDeltas hasStep events) = "" then "✓ Completed"
          else joinAll (forwardedDeltas hasStep events))
       else none) := by
  simp [stream_to_step, streamLoop_spec]

/-- C3 counterexample: a completed run with a step present and no forwarded
text (for instance, an event stream with no text deltas at all) writes the
fixed marker `"✓ Completed"` as the step's final output, which differs from
the (empty) concatenation of the forwarded deltas — so the forwarded
concatenation does not always equal the content written as the step's final
output. -/
theorem stream_relay_marker_counterexample :
    (stream_to_step true []).step_output = some "✓ Completed" ∧
    joinAll (stream_to_step true []).forwarded = "" ∧
    ("✓ Completed" : String) ≠ ("" : String) :=
  ⟨rfl, rfl, by decide⟩

/-- C3 amended: with a step present, the concatenation of all forwarded text
deltas equals the internally accumulated content; the step's final output is
that accumulated content whenever it is nonempty and the fixed marker
`"✓ Completed"` when no text was forwarded; and at every intermediate point
the text forwarded so far is a prefix of the final accumulated content. -/
theorem stream_relay_prefix_amended (events : List Event) :
    joinAll (stream_to_step true events).forwarded =
      (stream_to_step true events).final_acc ∧
    (stream_to_step true events).step_output =
      some (if (stream_to_step true events).final_acc = "" then "✓ Completed"
        else (stream_to_step true events).final_acc) ∧
    (∀ n : Nat, ∃ restText : String,
      joinAll (stream_to_step true (events.take n)).forwarded ++ restText =
        (stream_to_step true events).final_acc) := by
  refine ⟨?_, ?_, ?_⟩
  · rw [stream_to_step_forwarded, stream_to_step_final_acc]
  · rw [stream_to_step_output, stream_to_step_final_acc, if_pos rfl]
  · intro n
    refine ⟨joinAll (forwardedDeltas true (events.drop n)), ?_⟩
    rw [stream_to_step_forwarded, stream_to_step_final_acc, ← joinAll_append,
      forwardedDeltas_take_drop]

/-- C1 counterexample: with `to_date` strictly earlier than `from_date`, the
weather leaf provider performs no range check: given any well-formed (here
empty) response from the external API it returns a dataset instead of
raising the invalid-range error. -/
theorem weather_no_range_check_counterexample :
    (0 : Int) < 1 ∧
    get_hourly_weather_data 0 0 1 0 (fun _ => ⟨[], [], [], [], [], [], []⟩) =
      Except.ok ⟨[], [], [], [], [], []⟩ :=
  ⟨by decide, rfl⟩

/-- C1 amended: for `to_date < from_date` the logistics and production leaf
providers raise the invalid-range error and return no dataset, but the
weather provider performs no range check — it forwards the range to the
external API and builds a dataset out of whatever response comes back (shown
here for the empty response). -/
theorem leaf_invalid_range_amended
    (synthS : Nat → PyDateTime → String → String → ShipmentRecord)
    (randP : String → PyDateTime → ProdRand)
    (f t : Int) (origins destinations machines : Option (List String))
    (hpd : Nat) (oe : Option ℚ) (lat lon : ℚ)
    (h : t < f) :
    get_logistics_data synthS f t origins destinations hpd =
      Except.error "to_date must be >= from_date" ∧
    get_production_data randP f t machines oe =
      Except.error "to_date must be >= from_date" ∧
    get_hourly_weather_data lat lon f t (fun _ => ⟨[], [], [], [], [], [], []⟩) =
      Except.ok ⟨[], [], [], [], [], []⟩ := by
  refine ⟨?_, ?_, rfl⟩
  · rw [get_logistics_data, if_pos h]
  · rw [get_production_data, if_pos h]

/-- C1 witness: the reversed one-day range `from = 1, to = 0`. -/
theorem leaf_invalid_range_amended_witness :
    ((0 : Int) < 1) ∧
    (get_logistics_data
        (fun _ _ _ _ => ⟨⟨0, 0, 0, 0, 0⟩, "S", "WH-A", "CUST-1", TransportMode.TRUCK,
          0, 0, 0, ShipmentStatus.DELIVERED, 0, 0⟩) 1 0 none none 8 =
      Except.error "to_date must be >= from_date" ∧
    get_production_data (fun _ _ => ⟨0, 0, 600, 50, 20, 0, false, 0⟩) 1 0 none none =
      Except.error "to_date must be >= from_date" ∧
    get_hourly_weather_data 0 0 1 0 (fun _ => ⟨[], [], [], [], [], [], []⟩) =
      Except.ok ⟨[], [], [], [], [], []⟩) :=
  ⟨by decide,
    leaf_invalid_range_amended _ _ 1 0 none none none 8 none 0 0 (by decide)⟩

/-- C6 counterexample: a token that fails verification for a reason other
than expiry (for example a bad signature) is not caught by the auth
boundary: the exception escapes `auth_callback` (and therefore
`header_auth_callback` outside the local fake-user mode) instead of being
converted into a "no identity" result. -/
theorem auth_invalid_token_counterexample :
    auth_callback (some "token")
        (fun _ => DecodeOutcome.invalid "Signature verification failed") =
      Except.error "Signature verification failed" ∧
    header_auth_callback "production" none (some "token")
        (fun _ => DecodeOutcome.invalid "Signature verification failed") =
      Except.error "Signature verification failed" :=
  ⟨rfl, rfl⟩

/-- C6 amended: the auth boundary catches only the expired-token failure,
returning no identity in that case; every other invalid-token failure
propagates out of the boundary to the caller (and `header_auth_callback`
with no fake user configured delegates directly to `auth_callback`). -/
theorem auth_expired_only_amended (tok msg : String) (decode : String → DecodeOutcome)
    (ht : tok ≠ "") :
    (decode tok = DecodeOutcome.expired →
      auth_callback (some tok) decode = Except.ok none) ∧
    (decode tok = DecodeOutcome.invalid msg →
      auth_callback (some tok) decode = Except.error msg) ∧
    (∀ env : String,
      header_auth_callback env none (some tok) decode = auth_callback (some tok) decode) := by
  refine ⟨?_, ?_, fun env => rfl⟩ <;> intro hd <;> simp [auth_callback, ht, hd]

/-- C6 witness: an expired token with a nonempty header value is denied
without an escaping exception. -/
theorem auth_expired_only_amended_witness :
    (("t" : String) ≠ "") ∧
    (((fun _ : String => DecodeOutcome.expired) "t" = DecodeOutcome.expired →
      auth_callback (some "t") (fun _ : String => DecodeOutcome.expired) =
        Except.ok none) ∧
    ((fun _ : String => DecodeOutcome.expired) "t" = DecodeOutcome.invalid "m" →
      auth_callback (some "t") (fun _ : String => DecodeOutcome.expired) =
        Except.error "m") ∧
    (∀ env : String,
      header_auth_callback env none (some "t") (fun _ : String => DecodeOutcome.expired) =
        auth_callback (some "t") (fun _ : String => DecodeOutcome.expired))) :=
  ⟨by decide, auth_expired_only_amended "t" "m" (fun _ => DecodeOutcome.expired) (by decide)⟩
